import Mathlib

/-!
Shallow embedding of the Hyperswitch connector-adapter transformer layer,
covering the Adyen connector transformers
(`crates/hyperswitch_connectors/src/connectors/adyen/transformers.rs`)
and the Bank of America error-reason composition
(`crates/router/src/connector/bankofamerica/transformers.rs`).

Rust `Option<T>` is embedded as `Option T`, `Result<T, E>` as `Except E T`,
`String`/`Secret<String>` as `String`, `MinorUnit`/`i64`/`i128` as `Int`,
`u16` as `Nat`.  Enums and structs keep their source names and field order.
The `payouts` cargo feature is taken as enabled, so the `#[cfg(feature =
"payouts")]` arms of the source are part of the embedding.
-/

namespace HyperswitchAdyen

/-- Modelled from the spec: `common_enums::Currency` (an ISO-4217 code enum,
outside the sampled sources) is embedded as its code string; no sampled code
inspects the currency value, it is only carried along. -/
abbrev Currency := String

/-- Canonical attempt status, `storage_enums::AttemptStatus` (spec §3; the
variants are those listed by the spec plus `Started`, used by the payout arms
of the sampled code). -/
inductive AttemptStatus
  | PaymentMethodAwaited
  | ConfirmationAwaited
  | Authorizing
  | AuthenticationPending
  | AuthenticationSuccessful
  | Pending
  | Authorized
  | Charged
  | CaptureFailed
  | Voided
  | VoidFailed
  | Failure
  | Started
  deriving DecidableEq, Repr

/-- Modelled from the spec: `common_enums::PaymentMethodType` lives outside the
sampled sources; the embedding includes the variants the sampled Adyen code
matches on (`Pix`, `GoPay`, `GooglePay`) plus a representative of the rest.
Every sampled match on this type handles all remaining variants through a
wildcard arm, so the restriction to these variants loses nothing. -/
inductive PaymentMethodType
  | Pix
  | GoPay
  | GooglePay
  | Card
  | Klarna
  | Blik
  deriving DecidableEq, Repr

/-- Source `AdyenStatus` — result codes of a synchronous Adyen payment response. -/
inductive AdyenStatus
  | AuthenticationFinished
  | AuthenticationNotRequired
  | Authorised
  | Cancelled
  | ChallengeShopper
  | Error
  | Pending
  | Received
  | RedirectShopper
  | Refused
  | PresentToShopper
  | PayoutConfirmReceived
  | PayoutDeclineReceived
  | PayoutSubmitReceived
  deriving DecidableEq, Repr

/-- Source `AdyenWebhookStatus` — the intermediate status the webhook parser
translates event codes into. -/
inductive AdyenWebhookStatus
  | Authorised
  | AuthorisationFailed
  | Cancelled
  | CancelFailed
  | Captured
  | CaptureFailed
  | Reversed
  | UnexpectedEvent
  deriving DecidableEq, Repr

/-- Source `WebhookEventCode` — Adyen webhook event codes (payout feature enabled). -/
inductive WebhookEventCode
  | Authorisation
  | Refund
  | CancelOrRefund
  | Cancellation
  | Capture
  | CaptureFailed
  | RefundFailed
  | RefundReversed
  | NotificationOfChargeback
  | Chargeback
  | ChargebackReversed
  | SecondChargeback
  | PrearbitrationWon
  | PrearbitrationLost
  | PayoutThirdparty
  | PayoutDecline
  | PayoutExpire
  | PayoutReversed
  | Unknown
  deriving DecidableEq, Repr

/-- Source `DisputeStatus` — the Adyen dispute sub-status carried in webhook
additional data. -/
inductive DisputeStatus
  | Undefended
  | Pending
  | Lost
  | Accepted
  | Won
  deriving DecidableEq, Repr

/-- Canonical incoming-webhook event taxonomy,
`api_models::webhooks::IncomingWebhookEvent` (spec §3), restricted to the
variants produced by the sampled classifier. -/
inductive IncomingWebhookEvent
  | PaymentIntentSuccess
  | PaymentIntentFailure
  | PaymentIntentCancelled
  | PaymentIntentCancelFailure
  | PaymentIntentCaptureSuccess
  | PaymentIntentCaptureFailure
  | RefundSuccess
  | RefundFailure
  | DisputeOpened
  | DisputeChallenged
  | DisputeWon
  | DisputeLost
  | PayoutCreated
  | PayoutFailure
  | PayoutExpired
  | PayoutReversed
  | EventNotSupported
  deriving DecidableEq, Repr

/-- Connector error taxonomy (spec §7), restricted to the variants raised by
the sampled code. -/
inductive ConnectorError
  | NotImplemented (message : String)
  | WebhookBodyDecodingFailed
  | MissingRequiredField (field_name : String)
  | FlowNotSupported (flow : String) (connector : String)
  | FailedToObtainAuthType
  deriving DecidableEq, Repr

/-- Modelled from the spec: sentinel `hyperswitch_interfaces::consts::NO_ERROR_CODE`
(definition outside the sampled sources); the spec requires it to be a
non-empty fallback constant. -/
def NO_ERROR_CODE : String := "No error code"

/-- Modelled from the spec: sentinel `hyperswitch_interfaces::consts::NO_ERROR_MESSAGE`
(definition outside the sampled sources); the spec requires it to be a
non-empty fallback constant. -/
def NO_ERROR_MESSAGE : String := "No error message"

/-- Source `get_adyen_payment_status` — status normalizer for the synchronous
response path (transformers.rs lines 297-332). -/
def get_adyen_payment_status (is_manual_capture : Bool) (adyen_status : AdyenStatus)
    (pmt : Option PaymentMethodType) : AttemptStatus :=
  match adyen_status with
  | .AuthenticationFinished => .AuthenticationSuccessful
  | .AuthenticationNotRequired | .Received => .Pending
  | .Authorised =>
    match is_manual_capture with
    | true => .Authorized
    | false => .Charged
  | .Cancelled => .Voided
  | .ChallengeShopper | .RedirectShopper | .PresentToShopper => .AuthenticationPending
  | .Error | .Refused => .Failure
  | .Pending =>
    match pmt with
    | some .Pix => .AuthenticationPending
    | _ => .Pending
  | .PayoutConfirmReceived => .Started
  | .PayoutSubmitReceived => .Pending
  | .PayoutDeclineReceived => .Voided

/-- Source `ForeignTryFrom<(bool, AdyenWebhookStatus)> for AttemptStatus` — status
normalizer for the webhook path (transformers.rs lines 334-357). -/
def attempt_status_foreign_try_from (is_manual_capture : Bool)
    (adyen_webhook_status : AdyenWebhookStatus) : Except ConnectorError AttemptStatus :=
  match adyen_webhook_status with
  | .Authorised =>
    match is_manual_capture with
    | true => .ok .Authorized
    | false => .ok .Charged
  | .AuthorisationFailed => .ok .Failure
  | .Cancelled => .ok .Voided
  | .CancelFailed => .ok .VoidFailed
  | .Captured => .ok .Charged
  | .CaptureFailed => .ok .CaptureFailed
  | .UnexpectedEvent | .Reversed => .error .WebhookBodyDecodingFailed

/-- Source `is_success_scenario` (transformers.rs lines 4436-4438). -/
def is_success_scenario (is_success : String) : Bool :=
  is_success = "true"

/-- Source `get_adyen_webhook_event` — webhook event classifier
(transformers.rs lines 4440-4524). -/
def get_adyen_webhook_event (code : WebhookEventCode) (is_success : String)
    (dispute_status : Option DisputeStatus) : IncomingWebhookEvent :=
  match code with
  | .Authorisation =>
    if is_success_scenario is_success then .PaymentIntentSuccess else .PaymentIntentFailure
  | .Refund | .CancelOrRefund =>
    if is_success_scenario is_success then .RefundSuccess else .RefundFailure
  | .Cancellation =>
    if is_success_scenario is_success then .PaymentIntentCancelled
    else .PaymentIntentCancelFailure
  | .RefundFailed | .RefundReversed => .RefundFailure
  | .NotificationOfChargeback => .DisputeOpened
  | .Chargeback =>
    match dispute_status with
    | some .Won => .DisputeWon
    | some .Lost | none => .DisputeLost
    | some _ => .DisputeOpened
  | .ChargebackReversed =>
    match dispute_status with
    | some .Pending => .DisputeChallenged
    | _ => .DisputeWon
  | .SecondChargeback => .DisputeLost
  | .PrearbitrationWon =>
    match dispute_status with
    | some .Pending => .DisputeOpened
    | _ => .DisputeWon
  | .PrearbitrationLost => .DisputeLost
  | .Capture =>
    if is_success_scenario is_success then .PaymentIntentCaptureSuccess
    else .PaymentIntentCaptureFailure
  | .CaptureFailed => .PaymentIntentCaptureFailure
  | .PayoutThirdparty => .PayoutCreated
  | .PayoutDecline => .PayoutFailure
  | .PayoutExpire => .PayoutExpired
  | .PayoutReversed => .PayoutReversed
  | .Unknown => .EventNotSupported

/-- Source `Amount` (transformers.rs lines 566-570); `MinorUnit` is embedded as `Int`. -/
structure Amount where
  currency : Currency
  value : Int
  deriving DecidableEq, Repr

/-- Source `common_enums::AdyenSplitType` — modelled from the spec: the enum is
outside the sampled sources; both split mappers only clone the value, so a
representative set of variants suffices. -/
inductive AdyenSplitType
  | BalanceAccount
  | AcquiringFees
  | PaymentFee
  | AdyenFees
  | AdyenCommission
  | AdyenMarkup
  | Interchange
  | SchemeFee
  | Commission
  | TopUp
  | Vat
  deriving DecidableEq, Repr

/-- Wire-side `AdyenSplitData` (transformers.rs lines 218-227). -/
structure AdyenSplitData where
  amount : Option Amount
  split_type : AdyenSplitType
  account : Option String
  reference : String
  description : Option String
  deriving DecidableEq, Repr

/-- Canonical `common_types::domain::AdyenSplitItem` — modelled from the spec
(§3 ChargeResponseData): `{amount, reference, split_type, account,
description}`; the struct lives outside the sampled sources and its fields are
those read and written by `get_adyen_split_request` and
`construct_charge_response`. -/
structure AdyenSplitItem where
  amount : Option Int
  reference : String
  split_type : AdyenSplitType
  account : Option String
  description : Option String
  deriving DecidableEq, Repr

/-- Canonical `common_types::domain::AdyenSplitData` — modelled from the spec
(§3): a list of split items plus an optional top-level store id. -/
structure AdyenSplitDataDomain where
  store : Option String
  split_items : List AdyenSplitItem
  deriving DecidableEq, Repr

/-- Source `common_types::payments::ConnectorChargeResponseData`, restricted to the
variant the sampled code constructs. -/
inductive ConnectorChargeResponseData
  | AdyenSplitPayment (data : AdyenSplitDataDomain)
  deriving DecidableEq, Repr

/-- Source `get_adyen_split_request` (transformers.rs lines 3358-3377). -/
def get_adyen_split_request (split_request : AdyenSplitDataDomain)
    (currency : Currency) : Option String × Option (List AdyenSplitData) :=
  let splits := split_request.split_items.map fun split_item =>
    { amount := split_item.amount.map fun value => { currency := currency, value := value }
      reference := split_item.reference
      split_type := split_item.split_type
      account := split_item.account
      description := split_item.description : AdyenSplitData }
  (split_request.store, some splits)

/-- Source `construct_charge_response` (transformers.rs lines 4226-4247). -/
def construct_charge_response (store : Option String)
    (split_item : List AdyenSplitData) : ConnectorChargeResponseData :=
  let splits : List AdyenSplitItem := split_item.map fun split_item =>
    { amount := split_item.amount.map fun amount => amount.value
      reference := split_item.reference
      split_type := split_item.split_type
      account := split_item.account
      description := split_item.description }
  .AdyenSplitPayment { store := store, split_items := splits }

/-- Source `AdyenAdditionalDataWH` (transformers.rs lines 4336-4352);
`PrimitiveDateTime` is embedded as `Int` (a timestamp). -/
structure AdyenAdditionalDataWH where
  hmac_signature : String
  dispute_status : Option DisputeStatus
  chargeback_reason_code : Option String
  defense_period_ends_at : Option Int
  recurring_detail_reference : Option String
  network_tx_reference : Option String
  refusal_reason_raw : Option String
  refusal_code_raw : Option String
  deriving DecidableEq, Repr

/-- Source `AdyenAmountWH` (transformers.rs lines 4354-4358). -/
structure AdyenAmountWH where
  value : Int
  currency : Currency
  deriving DecidableEq, Repr

/-- Source `AdyenNotificationRequestItemWH` (transformers.rs lines 4538-4552). -/
structure AdyenNotificationRequestItemWH where
  additional_data : AdyenAdditionalDataWH
  amount : AdyenAmountWH
  original_reference : Option String
  psp_reference : String
  event_code : WebhookEventCode
  merchant_account_code : String
  merchant_reference : String
  success : String
  reason : Option String
  event_date : Option Int
  deriving DecidableEq, Repr

/-- Source `AdyenWebhookResponse` (transformers.rs lines 438-455). -/
structure AdyenWebhookResponse where
  transaction_id : String
  payment_reference : Option String
  status : AdyenWebhookStatus
  amount : Option Amount
  merchant_reference_id : String
  refusal_reason : Option String
  refusal_reason_code : Option String
  event_code : WebhookEventCode
  refusal_code_raw : Option String
  refusal_reason_raw : Option String
  deriving DecidableEq, Repr

/-- Source `From<AdyenNotificationRequestItemWH> for AdyenWebhookResponse`
(transformers.rs lines 4566-4641). -/
def adyen_webhook_response_from (notif : AdyenNotificationRequestItemWH) :
    AdyenWebhookResponse :=
  let p : Option String × Option String :=
    if ¬ is_success_scenario notif.success then
      (notif.reason.or (some NO_ERROR_MESSAGE), some NO_ERROR_CODE)
    else
      (none, none)
  { transaction_id := notif.psp_reference
    payment_reference := notif.original_reference
    status :=
      match notif.event_code with
      | .Authorisation =>
        if is_success_scenario notif.success then .Authorised else .AuthorisationFailed
      | .Cancellation =>
        if is_success_scenario notif.success then .Cancelled else .CancelFailed
      | .Capture =>
        if is_success_scenario notif.success then .Captured else .CaptureFailed
      | .PayoutThirdparty =>
        if is_success_scenario notif.success then .Authorised else .AuthorisationFailed
      | .PayoutDecline => .Cancelled
      | .PayoutExpire => .AuthorisationFailed
      | .PayoutReversed => .Reversed
      | .CaptureFailed => .CaptureFailed
      | .CancelOrRefund | .Refund | .RefundFailed | .RefundReversed
      | .NotificationOfChargeback | .Chargeback | .ChargebackReversed
      | .SecondChargeback | .PrearbitrationWon | .PrearbitrationLost
      | .Unknown => .UnexpectedEvent
    amount := some { value := notif.amount.value, currency := notif.amount.currency }
    merchant_reference_id := notif.merchant_reference
    refusal_reason := p.1
    refusal_reason_code := p.2
    event_code := notif.event_code
    refusal_code_raw := notif.additional_data.refusal_code_raw
    refusal_reason_raw := notif.additional_data.refusal_reason_raw }

/-- Source `ErrorResponse` (spec §3; field set as constructed by the sampled code). -/
structure ErrorResponse where
  code : String
  message : String
  reason : Option String
  status_code : Nat
  attempt_status : Option AttemptStatus
  connector_transaction_id : Option String
  issuer_error_code : Option String
  issuer_error_message : Option String
  deriving DecidableEq, Repr

/-- Source `ResponseId`, restricted to the variant the sampled code constructs. -/
inductive ResponseId
  | ConnectorTransactionId (id : String)
  deriving DecidableEq, Repr

/-- Source `MandateReference` as constructed by `get_adyen_response`. -/
structure MandateReference where
  connector_mandate_id : Option String
  payment_method_id : Option String
  mandate_metadata : Option String
  connector_mandate_request_reference_id : Option String
  deriving DecidableEq, Repr

/-- Source `PaymentsResponseData`, restricted to the two variants the sampled Adyen
response handlers construct; `redirection_data` and `connector_metadata` are
always `None` on these paths and are embedded as `Option Unit`. -/
inductive PaymentsResponseData
  | TransactionResponse
      (resource_id : ResponseId)
      (redirection_data : Option Unit)
      (mandate_reference : Option MandateReference)
      (connector_metadata : Option Unit)
      (network_txn_id : Option String)
      (connector_response_reference_id : Option String)
      (incremental_authorization_allowed : Option Bool)
      (charges : Option ConnectorChargeResponseData)
  | MultipleCaptureResponse
      (capture_sync_response_list : List (String × AttemptStatus))
  deriving DecidableEq, Repr

/-- Source `MultipleCaptureSyncResponse::get_capture_attempt_status` for
`AdyenWebhookResponse` (transformers.rs lines 4649-4654). -/
def get_capture_attempt_status (r : AdyenWebhookResponse) : AttemptStatus :=
  match r.status with
  | .Captured => .Charged
  | _ => .CaptureFailed

/-- Modelled from the spec: `utils::construct_captures_response_hashmap`
(outside the sampled sources) builds the list-of-captures response keyed by
connector capture id (spec §4.4); keys and statuses come from the sampled
`MultipleCaptureSyncResponse` impl (transformers.rs lines 4644-4660). -/
def construct_captures_response_hashmap (l : List AdyenWebhookResponse) :
    Except ConnectorError (List (String × AttemptStatus)) :=
  .ok (l.map fun r => (r.transaction_id, get_capture_attempt_status r))

/-- Source `get_webhook_response` (transformers.rs lines 3518-3586). -/
def get_webhook_response (response : AdyenWebhookResponse) (is_capture_manual : Bool)
    (is_multiple_capture_psync_flow : Bool) (status_code : Nat) :
    Except ConnectorError
      (AttemptStatus × Option ErrorResponse × PaymentsResponseData) := do
  let status ← attempt_status_foreign_try_from is_capture_manual response.status
  let error : Option ErrorResponse :=
    if response.refusal_reason.isSome ∨ response.refusal_reason_code.isSome ∨
        status = AttemptStatus.Failure then
      some
        { code := response.refusal_reason_code.getD NO_ERROR_CODE
          message := response.refusal_reason.getD NO_ERROR_MESSAGE
          reason := response.refusal_reason
          status_code := status_code
          attempt_status := none
          connector_transaction_id := some response.transaction_id
          issuer_error_code := response.refusal_code_raw
          issuer_error_message := response.refusal_reason_raw }
    else
      none
  if is_multiple_capture_psync_flow then
    let capture_sync_response_list ← construct_captures_response_hashmap [response]
    return (status, error, .MultipleCaptureResponse capture_sync_response_list)
  else
    return (status, error,
      .TransactionResponse
        (.ConnectorTransactionId (response.payment_reference.getD response.transaction_id))
        none none none none (some response.merchant_reference_id) none none)

/-- Source `AdyenRecurringModel` (transformers.rs lines 120-123). -/
inductive AdyenRecurringModel
  | UnscheduledCardOnFile
  | CardOnFile
  deriving DecidableEq, Repr

/-- Source `AuthType` (request-side `authorisation_type`), as in transformers.rs. -/
inductive AuthType
  | PreAuth
  deriving DecidableEq, Repr

/-- Source `PayoutEligibility` placeholder for the payout-feature field of
`AdditionalData`; no sampled code reads it. -/
inductive PayoutEligibility
  | Yes
  | No
  deriving DecidableEq, Repr

/-- Source `AdditionalData` (transformers.rs lines 133-149). -/
structure AdditionalData where
  authorisation_type : Option AuthType
  manual_capture : Option String
  execute_three_d : Option String
  recurring_processing_model : Option AdyenRecurringModel
  recurring_detail_reference : Option String
  recurring_shopper_reference : Option String
  network_tx_reference : Option String
  payout_eligible : Option PayoutEligibility
  funds_availability : Option String
  refusal_reason_raw : Option String
  refusal_code_raw : Option String
  deriving DecidableEq, Repr

/-- Source `AdyenResponse` (transformers.rs lines 410-422). -/
structure AdyenResponse where
  psp_reference : String
  result_code : AdyenStatus
  amount : Option Amount
  merchant_reference : String
  refusal_reason : Option String
  refusal_reason_code : Option String
  additional_data : Option AdditionalData
  splits : Option (List AdyenSplitData)
  store : Option String
  deriving DecidableEq, Repr

/-- Source `get_adyen_response` (transformers.rs lines 3442-3516). -/
def get_adyen_response (response : AdyenResponse) (is_capture_manual : Bool)
    (status_code : Nat) (pmt : Option PaymentMethodType) :
    Except ConnectorError
      (AttemptStatus × Option ErrorResponse × PaymentsResponseData) :=
  let status := get_adyen_payment_status is_capture_manual response.result_code pmt
  let error : Option ErrorResponse :=
    if response.refusal_reason.isSome ∨ response.refusal_reason_code.isSome ∨
        status = AttemptStatus.Failure then
      some
        { code := response.refusal_reason_code.getD NO_ERROR_CODE
          message := response.refusal_reason.getD NO_ERROR_MESSAGE
          reason := response.refusal_reason
          status_code := status_code
          attempt_status := none
          connector_transaction_id := some response.psp_reference
          issuer_error_code := response.additional_data.bind fun data => data.refusal_code_raw
          issuer_error_message :=
            response.additional_data.bind fun data => data.refusal_reason_raw }
    else
      none
  let mandate_reference : Option MandateReference :=
    (response.additional_data.bind fun data => data.recurring_detail_reference).map
      fun mandate_id =>
        { connector_mandate_id := some mandate_id
          payment_method_id := none
          mandate_metadata := none
          connector_mandate_request_reference_id := none }
  let network_txn_id :=
    response.additional_data.bind fun additional_data => additional_data.network_tx_reference
  let charges : Option ConnectorChargeResponseData :=
    match response.splits with
    | some split_items => some (construct_charge_response response.store split_items)
    | none => none
  let payments_response_data : PaymentsResponseData :=
    .TransactionResponse
      (.ConnectorTransactionId response.psp_reference)
      none mandate_reference none network_txn_id
      (some response.merchant_reference) none charges
  .ok (status, error, payments_response_data)

/-- Source `storage_enums::FutureUsage` — modelled from the spec: the enum is outside
the sampled sources; its two variants are the on/off-session pair keyed on by
the decision table of spec §4.2. -/
inductive FutureUsage
  | OffSession
  | OnSession
  deriving DecidableEq, Repr

/-- Source `MandateReferenceId` — modelled from the spec (§3 MandateReference): the
three mutually exclusive recurring-payment addressing schemes; the sampled
dispatch only tests its presence and forwards it. -/
inductive MandateReferenceId
  | ConnectorMandateId (id : String)
  | NetworkMandateId (id : String)
  | NetworkTokenWithNTI (id : String)
  deriving DecidableEq, Repr

/-- Source `MandateIds` — carrier of the optional mandate reference id, as consumed
by the sampled dispatch (`mandate_ids.mandate_reference_id`). -/
structure MandateIds where
  mandate_reference_id : Option MandateReferenceId
  deriving DecidableEq, Repr

/-- Source `BankDebitData` (`hyperswitch_domain_models`): constructors as matched
exhaustively — with no wildcard — by the sampled mapper (transformers.rs lines
1910-1951); only the fields that mapper reads are embedded. -/
inductive BankDebitData
  | AchBankDebit (account_number : String) (routing_number : String)
  | SepaBankDebit (iban : String)
  | BacsBankDebit (account_number : String) (sort_code : String)
  | BecsBankDebit
  deriving DecidableEq, Repr

/-- Source `PaymentMethodData` top-level sum type: constructors as matched
exhaustively — with no wildcard — by the sampled authorize dispatch
(transformers.rs lines 1599-1655).  Only the `BankDebit` payload is embedded;
the other payloads are not read by the properties under verification. -/
inductive PaymentMethodData
  | Card
  | Wallet
  | PayLater
  | BankRedirect
  | BankDebit (data : BankDebitData)
  | BankTransfer
  | CardRedirect
  | Voucher
  | GiftCard
  | NetworkToken
  | Crypto
  | MandatePayment
  | Reward
  | RealTimePayment
  | MobilePayment
  | Upi
  | OpenBanking
  | CardToken
  | CardDetailsForNetworkTransactionId
  deriving DecidableEq, Repr

/-- Request payload of `PaymentsAuthorizeRouterData` — the fields of the
external `PaymentsAuthorizeData` read by the sampled code.
`is_mandate_payment` is modelled from the spec: the helper
`request.is_mandate_payment()` lives outside the sampled sources and the spec
only uses its boolean outcome ("whether the request is a mandate payment"). -/
structure PaymentsAuthorizeRequestData where
  setup_future_usage : Option FutureUsage
  off_session : Option Bool
  mandate_id : Option MandateIds
  payment_method_data : PaymentMethodData
  is_mandate_payment : Bool
  deriving DecidableEq, Repr

/-- Source `PaymentsAuthorizeRouterData` — the fields read by the sampled code.
`customer_id` backs the external `get_customer_id()` accessor and
`billing_full_name` the external `get_billing_full_name()` accessor; both are
modelled from the spec (§4.1): a `require(field, name)` helper that turns
`None` into `MissingRequiredField{field_name}`. -/
structure PaymentsAuthorizeRouterData where
  merchant_id : String
  customer_id : Option String
  billing_full_name : Option String
  request : PaymentsAuthorizeRequestData
  deriving DecidableEq, Repr

/-- Modelled from the spec: external accessor `item.get_customer_id()`,
failing with a precise missing-field error when absent (spec §4.1). -/
def get_customer_id (item : PaymentsAuthorizeRouterData) :
    Except ConnectorError String :=
  match item.customer_id with
  | some c => .ok c
  | none => .error (.MissingRequiredField "customer_id")

/-- Modelled from the spec: external accessor `item.get_billing_full_name()`,
failing with a precise missing-field error when absent (spec §4.1). -/
def get_billing_full_name (item : PaymentsAuthorizeRouterData) :
    Except ConnectorError String :=
  match item.billing_full_name with
  | some n => .ok n
  | none => .error (.MissingRequiredField "billing_full_name")

/-- Source `get_recurring_processing_model` (transformers.rs lines 1699-1728). -/
def get_recurring_processing_model (item : PaymentsAuthorizeRouterData) :
    Except ConnectorError (Option AdyenRecurringModel × Option Bool × Option String) :=
  match item.request.setup_future_usage, item.request.off_session with
  | some .OffSession, _ => do
    let customer_id ← get_customer_id item
    let shopper_reference := item.merchant_id ++ "_" ++ customer_id
    let store_payment_method := item.request.is_mandate_payment
    .ok (some .UnscheduledCardOnFile, some store_payment_method, some shopper_reference)
  | _, some true => do
    let customer_id ← get_customer_id item
    .ok (some .UnscheduledCardOnFile, none, some (item.merchant_id ++ "_" ++ customer_id))
  | _, _ => .ok (none, none, none)

/-- Source `AchDirectDebitData` as constructed by the bank-debit mapper. -/
structure AchDirectDebitData where
  bank_account_number : String
  bank_location_id : String
  owner_name : String
  deriving DecidableEq, Repr

/-- Source `SepaDirectDebitData` as constructed by the bank-debit mapper. -/
structure SepaDirectDebitData where
  owner_name : String
  iban_number : String
  deriving DecidableEq, Repr

/-- Source `BacsDirectDebitData` as constructed by the bank-debit mapper. -/
structure BacsDirectDebitData where
  bank_account_number : String
  bank_location_id : String
  holder_name : String
  deriving DecidableEq, Repr

/-- Source `AdyenPaymentMethod`, restricted to the bank-debit variants produced by
the mapper under verification (the source enum has many more variants, none
of which the verified properties mention). -/
inductive AdyenPaymentMethod
  | AchDirectDebit (data : AchDirectDebitData)
  | SepaDirectDebit (data : SepaDirectDebitData)
  | BacsDirectDebit (data : BacsDirectDebitData)
  deriving DecidableEq, Repr

/-- Modelled from the spec: `utils::get_unimplemented_payment_method_error_message`
(outside the sampled sources) builds the stable "not implemented for connector"
message of spec §7. -/
def get_unimplemented_payment_method_error_message (connector : String) : String :=
  "Selected payment method through " ++ connector

/-- Source `TryFrom<(&BankDebitData, &PaymentsAuthorizeRouterData)> for
AdyenPaymentMethod` (transformers.rs lines 1910-1951). -/
def adyen_payment_method_try_from_bank_debit (bank_debit_data : BankDebitData)
    (item : PaymentsAuthorizeRouterData) : Except ConnectorError AdyenPaymentMethod :=
  match bank_debit_data with
  | .AchBankDebit account_number routing_number => do
    let owner_name ← get_billing_full_name item
    .ok (.AchDirectDebit
      { bank_account_number := account_number
        bank_location_id := routing_number
        owner_name := owner_name })
  | .SepaBankDebit iban => do
    let owner_name ← get_billing_full_name item
    .ok (.SepaDirectDebit { owner_name := owner_name, iban_number := iban })
  | .BacsBankDebit account_number sort_code => do
    let holder_name ← get_billing_full_name item
    .ok (.BacsDirectDebit
      { bank_account_number := account_number
        bank_location_id := sort_code
        holder_name := holder_name })
  | .BecsBankDebit =>
    .error (.NotImplemented (get_unimplemented_payment_method_error_message "Adyen"))

/-- The per-payload request constructor each dispatch arm delegates to; the
embedding records which constructor is selected together with its payload. -/
inductive AuthorizeBuildPath
  | MandatePath (mandate_ref : MandateReferenceId)
  | CardPath
  | WalletPath
  | PayLaterPath
  | BankRedirectPath
  | BankDebitPath (data : BankDebitData)
  | BankTransferPath
  | CardRedirectPath
  | VoucherPath
  | GiftCardPath
  | NetworkTokenPath
  deriving DecidableEq, Repr

/-- Source `TryFrom<&AdyenRouterData<&PaymentsAuthorizeRouterData>> for
AdyenPaymentRequest` — top-level dispatch (transformers.rs lines 1599-1655).
The per-payload `TryFrom` each handled arm delegates to is embedded as the
selected `AuthorizeBuildPath`; the unhandled union of canonical cases returns
`NotImplemented` exactly as in the source. -/
def adyen_payment_request_try_from (item : PaymentsAuthorizeRouterData) :
    Except ConnectorError AuthorizeBuildPath :=
  match item.request.mandate_id.bind fun mandate_ids => mandate_ids.mandate_reference_id with
  | some mandate_ref => .ok (.MandatePath mandate_ref)
  | none =>
    match item.request.payment_method_data with
    | .Card => .ok .CardPath
    | .Wallet => .ok .WalletPath
    | .PayLater => .ok .PayLaterPath
    | .BankRedirect => .ok .BankRedirectPath
    | .BankDebit bank_debit => .ok (.BankDebitPath bank_debit)
    | .BankTransfer => .ok .BankTransferPath
    | .CardRedirect => .ok .CardRedirectPath
    | .Voucher => .ok .VoucherPath
    | .GiftCard => .ok .GiftCardPath
    | .NetworkToken => .ok .NetworkTokenPath
    | .Crypto | .MandatePayment | .Reward | .RealTimePayment | .MobilePayment
    | .Upi | .OpenBanking | .CardToken | .CardDetailsForNetworkTransactionId =>
      .error (.NotImplemented (get_unimplemented_payment_method_error_message "Adyen"))

/-- Source `PaymentType` — the Adyen wire payment-method-type enum
(transformers.rs lines 1326-1428). -/
inductive PaymentType
  | Affirm
  | Afterpaytouch
  | Alipay
  | AlipayHk
  | Alfamart
  | Alma
  | Applepay
  | Bizum
  | Atome
  | Blik
  | BoletoBancario
  | ClearPay
  | Dana
  | Eps
  | Gcash
  | Googlepay
  | GoPay
  | Ideal
  | Indomaret
  | Klarna
  | Kakaopay
  | Mbway
  | MobilePay
  | Momo
  | MomoAtm
  | OnlineBankingCzechRepublic
  | OnlineBankingFinland
  | OnlineBankingPoland
  | OnlineBankingSlovakia
  | OnlineBankingFpx
  | OnlineBankingThailand
  | OpenBankingUK
  | Oxxo
  | PaySafeCard
  | PayBright
  | Paypal
  | Scheme
  | NetworkToken
  | Trustly
  | TouchNGo
  | Walley
  | WeChatPayWeb
  | AchDirectDebit
  | SepaDirectDebit
  | BacsDirectDebit
  | Samsungpay
  | Twint
  | Vipps
  | Giftcard
  | Knet
  | Benefit
  | Swish
  | PermataBankTransfer
  | BcaBankTransfer
  | BniVa
  | BriVa
  | CimbVa
  | DanamonVa
  | MandiriVa
  | SevenEleven
  | Lawson
  | MiniStop
  | FamilyMart
  | Seicomart
  | PayEasy
  | Pix
  deriving DecidableEq, Repr

/-- Source `WaitScreenData` (transformers.rs lines 3902-3906); the source serializes
this struct to JSON, embedded here as the struct itself. -/
structure WaitScreenData where
  display_from_timestamp : Int
  display_to_timestamp : Option Int
  deriving DecidableEq, Repr

/-- Source `Duration::minutes(1).whole_nanoseconds()`. -/
def one_minute_nanos : Int := 60 * 1000000000

/-- Source `get_wait_screen_metadata` (transformers.rs lines 3908-3991).  The source
reads `next_action.action.payment_method_type` and — in the `Blik` and `Mbway`
arms — the ambient clock `OffsetDateTime::now_utc().unix_timestamp_nanos()`;
the clock reading is embedded as the explicit argument `now_nanos`. -/
def get_wait_screen_metadata (payment_method_type : PaymentType) (now_nanos : Int) :
    Except ConnectorError (Option WaitScreenData) :=
  match payment_method_type with
  | .Blik =>
    .ok (some
      { display_from_timestamp := now_nanos
        display_to_timestamp := some (now_nanos + one_minute_nanos) })
  | .Mbway =>
    .ok (some { display_from_timestamp := now_nanos, display_to_timestamp := none })
  | _ => .ok none

end HyperswitchAdyen

namespace BankOfAmerica

/-- Source `Details` (bankofamerica/transformers.rs lines 2212-2215). -/
structure Details where
  field : String
  reason : String
  deriving DecidableEq, Repr

/-- The per-field join building `detailed_error_info`
(bankofamerica/transformers.rs lines 1429-1440): each detail rendered as
`"field : reason"`, the list joined by `", "`. -/
def detailed_error_info_join (details : List Details) : String :=
  String.intercalate ", " (details.map fun d => d.field ++ " : " ++ d.reason)

/-- Source `get_error_reason` (bankofamerica/transformers.rs lines 2594-2619). -/
def get_error_reason (error_info : Option String) (detailed_error_info : Option String)
    (avs_error_info : Option String) : Option String :=
  match error_info, detailed_error_info, avs_error_info with
  | some message, some details, some avs_message =>
    some (message ++ ", detailed_error_information: " ++ details ++
      ", avs_message: " ++ avs_message)
  | some message, some details, none =>
    some (message ++ ", detailed_error_information: " ++ details)
  | some message, none, some avs_message =>
    some (message ++ ", avs_message: " ++ avs_message)
  | none, some details, some avs_message =>
    some (details ++ ", avs_message: " ++ avs_message)
  | some message, none, none => some message
  | none, some details, none => some details
  | none, none, some avs_message => some avs_message
  | none, none, none => none

end BankOfAmerica

open HyperswitchAdyen BankOfAmerica

/-- C1: normalizing the Adyen connector status `Authorised` yields `Authorized`
under manual capture and `Charged` under automatic capture, for every
payment-method-type, on both the synchronous-response path
(`get_adyen_payment_status`) and the webhook path (the conversion of
`AdyenWebhookStatus::Authorised`); the if-then-else form shows these are the
only two possible outcomes for that input. -/
theorem c1_authorised_capture_duality (is_manual_capture : Bool)
    (pmt : Option PaymentMethodType) :
    get_adyen_payment_status is_manual_capture AdyenStatus.Authorised pmt =
      (if is_manual_capture then AttemptStatus.Authorized else AttemptStatus.Charged) ∧
    attempt_status_foreign_try_from is_manual_capture AdyenWebhookStatus.Authorised =
      Except.ok
        (if is_manual_capture then AttemptStatus.Authorized else AttemptStatus.Charged) := by
  cases is_manual_capture <;> exact ⟨rfl, rfl⟩

/-- C2 counterexample: the claim says an unmapped dispute sub-status defaults
to the non-terminal `Opened` classification for every event code, in
particular for `ChargebackReversed` with sub-statuses other than `Pending`;
but the code maps `ChargebackReversed` with sub-status `Undefended` to the
terminal `DisputeWon`, not `DisputeOpened`. -/
theorem c2_counterexample :
    get_adyen_webhook_event WebhookEventCode.ChargebackReversed "true"
        (some DisputeStatus.Undefended) = IncomingWebhookEvent.DisputeWon ∧
    get_adyen_webhook_event WebhookEventCode.ChargebackReversed "true"
        (some DisputeStatus.Undefended) ≠ IncomingWebhookEvent.DisputeOpened := by
  exact ⟨rfl, by decide⟩

/-- C2 (amended): the dispute classifier is total (a total function of its
arguments) and maps: `NotificationOfChargeback` to `DisputeOpened`;
`Chargeback` with sub-status `Won` to `DisputeWon`, with `Lost` or absent to
`DisputeLost`, and with any other sub-status to `DisputeOpened`;
`SecondChargeback` and `PrearbitrationLost` to `DisputeLost`;
`ChargebackReversed` with sub-status `Pending` to `DisputeChallenged` and with
any other sub-status (or none) to the terminal `DisputeWon`;
`PrearbitrationWon` with sub-status `Pending` to `DisputeOpened` and with any
other sub-status (or none) to the terminal `DisputeWon` — only the
`Chargeback` event code defaults unmapped sub-statuses to `Opened`. -/
theorem c2_amended_dispute_classifier (s : String) :
    (∀ ds, get_adyen_webhook_event .NotificationOfChargeback s ds =
      IncomingWebhookEvent.DisputeOpened) ∧
    get_adyen_webhook_event .Chargeback s (some .Won) = .DisputeWon ∧
    get_adyen_webhook_event .Chargeback s (some .Lost) = .DisputeLost ∧
    get_adyen_webhook_event .Chargeback s none = .DisputeLost ∧
    get_adyen_webhook_event .Chargeback s (some .Undefended) = .DisputeOpened ∧
    get_adyen_webhook_event .Chargeback s (some .Pending) = .DisputeOpened ∧
    get_adyen_webhook_event .Chargeback s (some .Accepted) = .DisputeOpened ∧
    (∀ ds, get_adyen_webhook_event .SecondChargeback s ds = .DisputeLost) ∧
    (∀ ds, get_adyen_webhook_event .PrearbitrationLost s ds = .DisputeLost) ∧
    get_adyen_webhook_event .ChargebackReversed s (some .Pending) = .DisputeChallenged ∧
    get_adyen_webhook_event .ChargebackReversed s none = .DisputeWon ∧
    get_adyen_webhook_event .ChargebackReversed s (some .Undefended) = .DisputeWon ∧
    get_adyen_webhook_event .ChargebackReversed s (some .Lost) = .DisputeWon ∧
    get_adyen_webhook_event .ChargebackReversed s (some .Accepted) = .DisputeWon ∧
    get_adyen_webhook_event .ChargebackReversed s (some .Won) = .DisputeWon ∧
    get_adyen_webhook_event .PrearbitrationWon s (some .Pending) = .DisputeOpened ∧
    get_adyen_webhook_event .PrearbitrationWon s none = .DisputeWon ∧
    get_adyen_webhook_event .PrearbitrationWon s (some .Undefended) = .DisputeWon ∧
    get_adyen_webhook_event .PrearbitrationWon s (some .Lost) = .DisputeWon ∧
    get_adyen_webhook_event .PrearbitrationWon s (some .Accepted) = .DisputeWon ∧
    get_adyen_webhook_event .PrearbitrationWon s (some .Won) = .DisputeWon := by
  exact ⟨fun _ => rfl, rfl, rfl, rfl, rfl, rfl, rfl, fun _ => rfl, fun _ => rfl,
    rfl, rfl, rfl, rfl, rfl, rfl, rfl, rfl, rfl, rfl, rfl, rfl⟩

/-- C10: every webhook notification whose event code is a refund code, a
dispute/chargeback code, or `Unknown` is parsed with status
`UnexpectedEvent`, and converting that status to a canonical attempt status
fails with `WebhookBodyDecodingFailed` for either capture mode. -/
theorem c10_unexpected_event_never_attempt_status
    (notif : AdyenNotificationRequestItemWH) (is_manual_capture : Bool)
    (h : notif.event_code = .Refund ∨ notif.event_code = .CancelOrRefund ∨
      notif.event_code = .RefundFailed ∨ notif.event_code = .RefundReversed ∨
      notif.event_code = .NotificationOfChargeback ∨ notif.event_code = .Chargeback ∨
      notif.event_code = .ChargebackReversed ∨ notif.event_code = .SecondChargeback ∨
      notif.event_code = .PrearbitrationWon ∨ notif.event_code = .PrearbitrationLost ∨
      notif.event_code = .Unknown) :
    (adyen_webhook_response_from notif).status = AdyenWebhookStatus.UnexpectedEvent ∧
    attempt_status_foreign_try_from is_manual_capture
        (adyen_webhook_response_from notif).status =
      Except.error ConnectorError.WebhookBodyDecodingFailed := by
  have hs : (adyen_webhook_response_from notif).status =
      AdyenWebhookStatus.UnexpectedEvent := by
    rcases h with h | h | h | h | h | h | h | h | h | h | h <;>
      simp [adyen_webhook_response_from, h]
  exact ⟨hs, by rw [hs]; rfl⟩

/-- C10 witness at a concrete refund-code notification. -/
theorem c10_witness :
    (adyen_webhook_response_from
      { additional_data :=
          { hmac_signature := "h", dispute_status := none,
            chargeback_reason_code := none, defense_period_ends_at := none,
            recurring_detail_reference := none, network_tx_reference := none,
            refusal_reason_raw := none, refusal_code_raw := none }
        amount := { value := 100, currency := "USD" }
        original_reference := none
        psp_reference := "psp_1"
        event_code := .Refund
        merchant_account_code := "macc"
        merchant_reference := "mref"
        success := "true"
        reason := none
        event_date := none }).status = AdyenWebhookStatus.UnexpectedEvent :=
  (c10_unexpected_event_never_attempt_status _ true (Or.inl rfl)).1

/-- C3 counterexample: the claim says the `ErrorResponse` message is never
empty; but a webhook notification with event code `Authorisation`, success
`"false"`, and an explicitly empty reason string yields an `ErrorResponse`
whose message is the empty string (the `NO_ERROR_MESSAGE` fallback fires only
when the reason is absent, not when it is empty). -/
theorem c3_counterexample :
    get_webhook_response
      (adyen_webhook_response_from
        { additional_data :=
            { hmac_signature := "h", dispute_status := none,
              chargeback_reason_code := none, defense_period_ends_at := none,
              recurring_detail_reference := none, network_tx_reference := none,
              refusal_reason_raw := none, refusal_code_raw := none }
          amount := { value := 100, currency := "USD" }
          original_reference := none
          psp_reference := "psp_1"
          event_code := .Authorisation
          merchant_account_code := "macc"
          merchant_reference := "mref"
          success := "false"
          reason := some ""
          event_date := none })
      false false 200 =
    Except.ok (AttemptStatus.Failure,
      some { code := NO_ERROR_CODE, message := "", reason := some "",
             status_code := 200, attempt_status := none,
             connector_transaction_id := some "psp_1",
             issuer_error_code := none, issuer_error_message := none },
      PaymentsResponseData.TransactionResponse
        (.ConnectorTransactionId "psp_1") none none none none (some "mref") none none) ∧
    ("" : String) ≠ NO_ERROR_MESSAGE := by
  exact ⟨rfl, by decide⟩

/-- C3 (amended): for every Adyen webhook notification with event code
`Authorisation` and success flag `"false"`, parsing yields the intermediate
status `AuthorisationFailed`, which normalizes to the canonical attempt
status `Failure`; the resulting `ErrorResponse` has code equal to the
non-empty sentinel `NO_ERROR_CODE` and message equal to the reason of the notification when one is carried and to the sentinel `NO_ERROR_MESSAGE` when not;
the message can be empty only if the notification carries an explicitly empty
reason string. -/
theorem c3_amended_authorisation_failed_webhook
    (notif : AdyenNotificationRequestItemWH) (is_capture_manual : Bool)
    (status_code : Nat)
    (he : notif.event_code = WebhookEventCode.Authorisation)
    (hs : notif.success = "false") :
    (adyen_webhook_response_from notif).status = AdyenWebhookStatus.AuthorisationFailed ∧
    attempt_status_foreign_try_from is_capture_manual
        AdyenWebhookStatus.AuthorisationFailed = Except.ok AttemptStatus.Failure ∧
    ∃ err rd,
      get_webhook_response (adyen_webhook_response_from notif) is_capture_manual
          false status_code = Except.ok (AttemptStatus.Failure, some err, rd) ∧
      err.code = NO_ERROR_CODE ∧
      err.message = notif.reason.getD NO_ERROR_MESSAGE ∧
      err.code ≠ "" ∧
      (notif.reason = none → err.message = NO_ERROR_MESSAGE) := by
  obtain ⟨ad, amt, origref, psp, ec, macc, mref, succ, rsn, ed⟩ := notif
  simp only at he hs
  subst he
  subst hs
  cases rsn with
  | none =>
    exact ⟨rfl, rfl, _, _, rfl, rfl, rfl, (by decide : NO_ERROR_CODE ≠ ""), fun _ => rfl⟩
  | some r =>
    exact ⟨rfl, rfl, _, _, rfl, rfl, rfl, (by decide : NO_ERROR_CODE ≠ ""),
      fun hcon => by cases hcon⟩

/-- C3 witness at a concrete failed-authorisation notification without a
reason. -/
theorem c3_amended_witness :
    (adyen_webhook_response_from
      { additional_data :=
          { hmac_signature := "h", dispute_status := none,
            chargeback_reason_code := none, defense_period_ends_at := none,
            recurring_detail_reference := none, network_tx_reference := none,
            refusal_reason_raw := none, refusal_code_raw := none }
        amount := { value := 250, currency := "EUR" }
        original_reference := none
        psp_reference := "psp_2"
        event_code := .Authorisation
        merchant_account_code := "macc"
        merchant_reference := "mref"
        success := "false"
        reason := none
        event_date := none }).status = AdyenWebhookStatus.AuthorisationFailed :=
  (c3_amended_authorisation_failed_webhook _ true 200 rfl rfl).1

/-- C4: `get_adyen_response` always returns `Ok`; its error component is
`Some` exactly when the response carries a refusal reason, carries a refusal
reason code, or normalizes to status `Failure`; and a business-level decline
(result code `Refused` or `Error`) yields `Ok` with attempt status `Failure`
and a present `ErrorResponse`. -/
theorem c4_decline_is_ok_path (response : AdyenResponse) (is_capture_manual : Bool)
    (status_code : Nat) (pmt : Option PaymentMethodType) :
    ∃ st err rd,
      get_adyen_response response is_capture_manual status_code pmt =
        Except.ok (st, err, rd) ∧
      (err.isSome ↔ (response.refusal_reason.isSome ∨
        response.refusal_reason_code.isSome ∨ st = AttemptStatus.Failure)) ∧
      ((response.result_code = AdyenStatus.Refused ∨
          response.result_code = AdyenStatus.Error) →
        st = AttemptStatus.Failure ∧ err.isSome) := by
  refine ⟨_, _, _, rfl, ?_, ?_⟩
  · by_cases h : response.refusal_reason.isSome ∨ response.refusal_reason_code.isSome ∨
        get_adyen_payment_status is_capture_manual response.result_code pmt =
          AttemptStatus.Failure
    · simp [h]
    · simp [h]
  · rintro (h | h) <;>
      simp [h, get_adyen_payment_status]

/-- C4 witness at a concrete `Refused` response. -/
theorem c4_witness :
    ∃ st err rd,
      get_adyen_response
        { psp_reference := "psp_3", result_code := AdyenStatus.Refused, amount := none,
          merchant_reference := "mref", refusal_reason := none,
          refusal_reason_code := none, additional_data := none, splits := none,
          store := none } false 200 none = Except.ok (st, err, rd) ∧
      st = AttemptStatus.Failure ∧ err.isSome := by
  obtain ⟨st, err, rd, hok, _, himp⟩ :=
    c4_decline_is_ok_path
      { psp_reference := "psp_3", result_code := AdyenStatus.Refused, amount := none,
        merchant_reference := "mref", refusal_reason := none,
        refusal_reason_code := none, additional_data := none, splits := none,
        store := none } false 200 none
  obtain ⟨h1, h2⟩ := himp (Or.inl rfl)
  exact ⟨st, err, rd, hok, h1, h2⟩

/-- C5: `get_recurring_processing_model` implements the decision table —
`OffSession` with an available customer id returns
`(UnscheduledCardOnFile, Some(is_mandate_payment), Some(merchant_id ++ "_" ++
customer_id))`; a non-`OffSession` request with `off_session = true` returns
`(UnscheduledCardOnFile, None, Some(shopper_reference))`; otherwise
`(None, None, None)`; and when an existing mandate reference is present the
authorize request is built through the mandate path. -/
theorem c5_recurring_decision_table (item : PaymentsAuthorizeRouterData) :
    (∀ c, item.customer_id = some c →
      item.request.setup_future_usage = some FutureUsage.OffSession →
      get_recurring_processing_model item =
        Except.ok (some AdyenRecurringModel.UnscheduledCardOnFile,
          some item.request.is_mandate_payment,
          some (item.merchant_id ++ "_" ++ c))) ∧
    (∀ c, item.customer_id = some c →
      item.request.setup_future_usage ≠ some FutureUsage.OffSession →
      item.request.off_session = some true →
      get_recurring_processing_model item =
        Except.ok (some AdyenRecurringModel.UnscheduledCardOnFile, none,
          some (item.merchant_id ++ "_" ++ c))) ∧
    (item.request.setup_future_usage ≠ some FutureUsage.OffSession →
      item.request.off_session ≠ some true →
      get_recurring_processing_model item = Except.ok (none, none, none)) ∧
    (∀ mandate_ref,
      (item.request.mandate_id.bind fun m => m.mandate_reference_id) = some mandate_ref →
      adyen_payment_request_try_from item =
        Except.ok (AuthorizeBuildPath.MandatePath mandate_ref)) := by
  refine ⟨?_, ?_, ?_, ?_⟩
  · intro c hc hsfu
    simp [get_recurring_processing_model, hsfu, get_customer_id, hc]
    rfl
  · intro c hc hsfu hoff
    rcases hu : item.request.setup_future_usage with _ | u
    · simp [get_recurring_processing_model, hu, hoff, get_customer_id, hc]
      rfl
    · cases u with
      | OffSession => exact absurd hu hsfu
      | OnSession =>
        simp [get_recurring_processing_model, hu, hoff, get_customer_id, hc]
        rfl
  · intro hsfu hoff
    rcases hu : item.request.setup_future_usage with _ | u
    · rcases ho : item.request.off_session with _ | b
      · simp [get_recurring_processing_model, hu, ho]
      · cases b
        · simp [get_recurring_processing_model, hu, ho]
        · exact absurd ho hoff
    · cases u with
      | OffSession => exact absurd hu hsfu
      | OnSession =>
        rcases ho : item.request.off_session with _ | b
        · simp [get_recurring_processing_model, hu, ho]
        · cases b
          · simp [get_recurring_processing_model, hu, ho]
          · exact absurd ho hoff
  · intro mandate_ref hm
    simp [adyen_payment_request_try_from, hm]

/-- C5 witness: the `OffSession` row of the decision table at a concrete
request. -/
theorem c5_witness :
    get_recurring_processing_model
      { merchant_id := "merchant_1", customer_id := some "cust_1",
        billing_full_name := none,
        request :=
          { setup_future_usage := some FutureUsage.OffSession, off_session := none,
            mandate_id := none, payment_method_data := .Card,
            is_mandate_payment := true } } =
      Except.ok (some AdyenRecurringModel.UnscheduledCardOnFile, some true,
        some "merchant_1_cust_1") :=
  (c5_recurring_decision_table _).1 "cust_1" rfl rfl

/-- C6: `get_error_reason` is `None` exactly when all three optional sources
are `None`, returns a sole present source unchanged, and composes several
present sources in the fixed order primary message, then detailed error
information, then AVS message; the detailed field-error list is the per-field
strings `"field : reason"` joined by `", "`. -/
theorem c6_error_reason_composition (x y z : Option String) (m d a : String)
    (d1 d2 : Details) :
    (get_error_reason x y z = none ↔ (x = none ∧ y = none ∧ z = none)) ∧
    get_error_reason (some m) none none = some m ∧
    get_error_reason none (some d) none = some d ∧
    get_error_reason none none (some a) = some a ∧
    get_error_reason (some m) (some d) (some a) =
      some (m ++ ", detailed_error_information: " ++ d ++ ", avs_message: " ++ a) ∧
    get_error_reason (some m) (some d) none =
      some (m ++ ", detailed_error_information: " ++ d) ∧
    get_error_reason (some m) none (some a) = some (m ++ ", avs_message: " ++ a) ∧
    get_error_reason none (some d) (some a) = some (d ++ ", avs_message: " ++ a) ∧
    detailed_error_info_join [d1, d2] =
      (d1.field ++ " : " ++ d1.reason) ++ ", " ++ (d2.field ++ " : " ++ d2.reason) := by
  refine ⟨?_, rfl, rfl, rfl, rfl, rfl, rfl, rfl, ?_⟩
  · rcases x with _ | xv <;> rcases y with _ | yv <;> rcases z with _ | zv <;>
      simp [get_error_reason]
  · rfl

/-- Decoding inverts encoding item-by-item on split lists (auxiliary to the
round-trip claim). -/
theorem split_items_decode_encode (currency : Currency) (items : List AdyenSplitItem) :
    List.map (fun split_item : AdyenSplitData =>
        ({ amount := split_item.amount.map fun amount => amount.value
           reference := split_item.reference
           split_type := split_item.split_type
           account := split_item.account
           description := split_item.description } : AdyenSplitItem))
      (List.map (fun split_item : AdyenSplitItem =>
        ({ amount := split_item.amount.map fun value =>
              { currency := currency, value := value }
           reference := split_item.reference
           split_type := split_item.split_type
           account := split_item.account
           description := split_item.description } : AdyenSplitData)) items) = items := by
  induction items with
  | nil => rfl
  | cons head tail ih =>
    obtain ⟨amt, ref, sty, acc, desc⟩ := head
    simp only [List.map_cons, ih]
    congr 1
    cases amt <;> rfl

/-- C7: for every canonical Adyen split-payment instruction and every
currency, encoding with `get_adyen_split_request` and decoding the resulting
wire splits with `construct_charge_response` yields the same store id and the
same split-item list (amounts, references, split types, accounts,
descriptions, in order). -/
theorem c7_split_payment_roundtrip (split_request : AdyenSplitDataDomain)
    (currency : Currency) (store : Option String) (wire : List AdyenSplitData)
    (h : get_adyen_split_request split_request currency = (store, some wire)) :
    construct_charge_response store wire =
      ConnectorChargeResponseData.AdyenSplitPayment split_request := by
  have hs : store = split_request.store := (congrArg Prod.fst h).symm
  have hw : wire = split_request.split_items.map fun split_item =>
      ({ amount := split_item.amount.map fun value =>
            { currency := currency, value := value }
         reference := split_item.reference
         split_type := split_item.split_type
         account := split_item.account
         description := split_item.description } : AdyenSplitData) :=
    (Option.some.inj (congrArg Prod.snd h)).symm
  subst hs
  subst hw
  clear h
  unfold construct_charge_response
  obtain ⟨st, items⟩ := split_request
  simp only [split_items_decode_encode]

/-- C7 witness: round trip at a concrete two-item split instruction. -/
theorem c7_witness :
    construct_charge_response (some "store_1")
      [{ amount := some { currency := "EUR", value := 600 }, reference := "r1",
         split_type := AdyenSplitType.BalanceAccount, account := some "acc_1",
         description := some "main" },
       { amount := none, reference := "r2",
         split_type := AdyenSplitType.Commission, account := none,
         description := none }] =
      ConnectorChargeResponseData.AdyenSplitPayment
        { store := some "store_1"
          split_items :=
            [{ amount := some 600, reference := "r1",
               split_type := AdyenSplitType.BalanceAccount, account := some "acc_1",
               description := some "main" },
             { amount := none, reference := "r2",
               split_type := AdyenSplitType.Commission, account := none,
               description := none }] } :=
  c7_split_payment_roundtrip
    { store := some "store_1"
      split_items :=
        [{ amount := some 600, reference := "r1",
           split_type := AdyenSplitType.BalanceAccount, account := some "acc_1",
           description := some "main" },
         { amount := none, reference := "r2",
           split_type := AdyenSplitType.Commission, account := none,
           description := none }] }
    "EUR" (some "store_1") _ rfl

/-- C8: the Adyen bank-debit mapper returns `NotImplemented` for
`BecsBankDebit` (it implements only Ach, Sepa, and Bacs, which succeed when
the billing name is available), and the top-level payment-method dispatch —
an exhaustive match — returns `NotImplemented` for every unhandled canonical
case: `Crypto`, `MandatePayment`, `Reward`, `RealTimePayment`,
`MobilePayment`, `Upi`, `OpenBanking`, `CardToken`,
`CardDetailsForNetworkTransactionId`; both functions are total, so no input
panics or silently degrades. -/
theorem c8_unsupported_methods_not_implemented
    (item : PaymentsAuthorizeRouterData) (name acct route iban sort_code : String) :
    adyen_payment_method_try_from_bank_debit BankDebitData.BecsBankDebit item =
      Except.error (ConnectorError.NotImplemented
        (get_unimplemented_payment_method_error_message "Adyen")) ∧
    adyen_payment_method_try_from_bank_debit (BankDebitData.AchBankDebit acct route)
        { item with billing_full_name := some name } =
      Except.ok (AdyenPaymentMethod.AchDirectDebit
        { bank_account_number := acct, bank_location_id := route, owner_name := name }) ∧
    adyen_payment_method_try_from_bank_debit (BankDebitData.SepaBankDebit iban)
        { item with billing_full_name := some name } =
      Except.ok (AdyenPaymentMethod.SepaDirectDebit
        { owner_name := name, iban_number := iban }) ∧
    adyen_payment_method_try_from_bank_debit (BankDebitData.BacsBankDebit acct sort_code)
        { item with billing_full_name := some name } =
      Except.ok (AdyenPaymentMethod.BacsDirectDebit
        { bank_account_number := acct, bank_location_id := sort_code,
          holder_name := name }) ∧
    (∀ pmd, (pmd = PaymentMethodData.Crypto ∨ pmd = PaymentMethodData.MandatePayment ∨
        pmd = PaymentMethodData.Reward ∨ pmd = PaymentMethodData.RealTimePayment ∨
        pmd = PaymentMethodData.MobilePayment ∨ pmd = PaymentMethodData.Upi ∨
        pmd = PaymentMethodData.OpenBanking ∨ pmd = PaymentMethodData.CardToken ∨
        pmd = PaymentMethodData.CardDetailsForNetworkTransactionId) →
      adyen_payment_request_try_from
          { item with request :=
              { item.request with mandate_id := none, payment_method_data := pmd } } =
        Except.error (ConnectorError.NotImplemented
          (get_unimplemented_payment_method_error_message "Adyen"))) := by
  refine ⟨rfl, rfl, rfl, rfl, ?_⟩
  rintro pmd (rfl | rfl | rfl | rfl | rfl | rfl | rfl | rfl | rfl) <;> rfl

/-- C8 witness: the `Becs` scenario and the `Crypto` dispatch case at a
concrete request. -/
theorem c8_witness :
    adyen_payment_method_try_from_bank_debit BankDebitData.BecsBankDebit
      { merchant_id := "m1", customer_id := none, billing_full_name := none,
        request :=
          { setup_future_usage := none, off_session := none, mandate_id := none,
            payment_method_data := .BankDebit BankDebitData.BecsBankDebit,
            is_mandate_payment := false } } =
    Except.error (ConnectorError.NotImplemented
      (get_unimplemented_payment_method_error_message "Adyen")) ∧
    adyen_payment_request_try_from
      { merchant_id := "m1", customer_id := none, billing_full_name := none,
        request :=
          { setup_future_usage := none, off_session := none, mandate_id := none,
            payment_method_data := PaymentMethodData.Crypto,
            is_mandate_payment := false } } =
    Except.error (ConnectorError.NotImplemented
      (get_unimplemented_payment_method_error_message "Adyen")) :=
  ⟨(c8_unsupported_methods_not_implemented
      { merchant_id := "m1", customer_id := none, billing_full_name := none,
        request :=
          { setup_future_usage := none, off_session := none, mandate_id := none,
            payment_method_data := .BankDebit BankDebitData.BecsBankDebit,
            is_mandate_payment := false } } "n" "a" "r" "i" "s").1,
   (c8_unsupported_methods_not_implemented
      { merchant_id := "m1", customer_id := none, billing_full_name := none,
        request :=
          { setup_future_usage := none, off_session := none, mandate_id := none,
            payment_method_data := PaymentMethodData.Crypto,
            is_mandate_payment := false } } "n" "a" "r" "i" "s").2.2.2.2
     PaymentMethodData.Crypto (Or.inl rfl)⟩

/-- C9 counterexample: the claim says every mapping function — including
`get_wait_screen_metadata` — returns identical outputs for identical inputs;
but for the `Blik` payment type the source reads the system clock (embedded
here as the explicit `now_nanos` argument), so two invocations on the same
`next_action` input at clock readings 0 and 1 return different metadata. -/
theorem c9_counterexample :
    get_wait_screen_metadata PaymentType.Blik 0 ≠
      get_wait_screen_metadata PaymentType.Blik 1 := by
  intro h
  simp [get_wait_screen_metadata, one_minute_nanos] at h

/-- C9 (amended): every mapping and parsing function of the embedded adapter
layer is a deterministic function of its inputs, except that
`get_wait_screen_metadata` additionally depends on the system clock for the
`Blik` and `Mbway` payment types, whose outputs embed the clock reading as
display timestamps; for every other payment type its result is
clock-independent and carries no metadata. -/
theorem c9_amended_wait_screen_clock_dependence (pt : PaymentType) (t1 t2 : Int)
    (h1 : pt ≠ PaymentType.Blik) (h2 : pt ≠ PaymentType.Mbway) :
    get_wait_screen_metadata pt t1 = Except.ok none ∧
    get_wait_screen_metadata pt t2 = Except.ok none ∧
    get_wait_screen_metadata PaymentType.Blik t1 =
      Except.ok (some ⟨t1, some (t1 + one_minute_nanos)⟩) ∧
    get_wait_screen_metadata PaymentType.Mbway t1 =
      Except.ok (some ⟨t1, none⟩) := by
  cases pt <;>
    first
    | exact absurd rfl h1
    | exact absurd rfl h2
    | exact ⟨rfl, rfl, rfl, rfl⟩

/-- C9 witness: clock-independence at the `Pix` payment type for two distinct
clock readings. -/
theorem c9_amended_witness :
    get_wait_screen_metadata PaymentType.Pix 0 = Except.ok none ∧
    get_wait_screen_metadata PaymentType.Pix 5 = Except.ok none :=
  ⟨(c9_amended_wait_screen_clock_dependence PaymentType.Pix 0 5
      (by decide) (by decide)).1,
   (c9_amended_wait_screen_clock_dependence PaymentType.Pix 0 5
      (by decide) (by decide)).2.1⟩
